import Mathlib

/-!
Verification of the 1inch-tezos cross-chain swap repository.

This file shallowly embeds the parts of the repository that the verified
claims are about:

* the timelock codec of `backend/src/contractDeployment.js`
  (`ContractDeploymentService.encodeTimelocks`,
  `ContractDeploymentService.extractOrderDeploymentParams`);
* the guard logic of the Solidity `EscrowSrc` contract (`withdraw`,
  `withdrawTo`, `publicWithdraw`, `cancel`, `publicCancel`, `_withdrawTo`,
  `_cancel`);
* the resolver orchestrator of `backend/src/examples/createOrder.js`
  (`ResolverService.handleSecretRevelation`, `executeWithdrawals`,
  `getOrderStatus`, `handleNewOrder`, `validateOrderForResolver`) and
  `backend/src/orderService.js` (`verifyOrderSignature`).

Machine integers are modelled as `Nat` with explicit `% 2 ^ 32` where the
source masks with `0xFFFFFFFF`; hash functions, address recovery and ledger
RPC calls are abstract function parameters, so every definition stays
executable.
-/

namespace Tezra

/-! ## Timelock codec (`ContractDeploymentService.encodeTimelocks`)

The source computes seven 32-bit stage delays plus a 32-bit deployment
timestamp and packs them into consecutive 32-bit lanes of one wide integer
(`packed |= (delay & 0xFFFFFFFFn) << BigInt(stage * 32)`, deployment
timestamp in bits 224-255).  The verification loop inside the same function
decodes lane `stage` as `(packed >> BigInt(stage*32)) & 0xFFFFFFFFn` and
recovers each absolute instant as `decodedDeployedAt + delay`. -/

/-- The seven per-stage delays handed to `encodeTimelocks`
(already reduced to seconds-from-deployment, as in the source). -/
structure TimelockDelays where
  srcWithdrawalDelay : Nat
  srcPublicWithdrawalDelay : Nat
  srcCancellationDelay : Nat
  srcPublicCancellationDelay : Nat
  dstWithdrawalDelay : Nat
  dstPublicWithdrawalDelay : Nat
  dstCancellationDelay : Nat
deriving DecidableEq, Repr

/-- The capping loop of `encodeTimelocks`: delays larger than `0xFFFFFFFF`
are overwritten with `0xFFFFFFFF` inside the local `delays` array
(`if (delays[i] > maxUint32) delays[i] = maxUint32`). -/
def capDelays (ds : List Nat) : List Nat :=
  ds.map (fun d => if d > 0xFFFFFFFF then 0xFFFFFFFF else d)

/-- Embedding of the packing performed by
`ContractDeploymentService.encodeTimelocks`.  The capping loop writes only
into the temporary `delays` array (`_delays` below); the packing reads the
original per-stage variables, exactly as the source does. -/
def encodeTimelocks (deployedAt : Nat) (d : TimelockDelays) : Nat :=
  let _delays := capDelays
    [d.srcWithdrawalDelay, d.srcPublicWithdrawalDelay, d.srcCancellationDelay,
     d.srcPublicCancellationDelay, d.dstWithdrawalDelay,
     d.dstPublicWithdrawalDelay, d.dstCancellationDelay]
  ((((((((0 : Nat)
    ||| (d.srcWithdrawalDelay &&& 0xFFFFFFFF) <<< 0)
    ||| (d.srcPublicWithdrawalDelay &&& 0xFFFFFFFF) <<< 32)
    ||| (d.srcCancellationDelay &&& 0xFFFFFFFF) <<< 64)
    ||| (d.srcPublicCancellationDelay &&& 0xFFFFFFFF) <<< 96)
    ||| (d.dstWithdrawalDelay &&& 0xFFFFFFFF) <<< 128)
    ||| (d.dstPublicWithdrawalDelay &&& 0xFFFFFFFF) <<< 160)
    ||| (d.dstCancellationDelay &&& 0xFFFFFFFF) <<< 192)
    ||| (deployedAt &&& 0xFFFFFFFF) <<< 224

/-- Lane extraction used by the verification loop of `encodeTimelocks`:
`Number((packed >> BigInt(stage * 32)) & 0xFFFFFFFFn)`. -/
def decodeStageDelay (packed : Nat) (stage : Nat) : Nat :=
  (packed >>> (stage * 32)) &&& 0xFFFFFFFF

/-- Deployment-timestamp lane: `Number((packed >> 224n) & 0xFFFFFFFFn)`. -/
def decodeDeployedAt (packed : Nat) : Nat :=
  (packed >>> 224) &&& 0xFFFFFFFF

/-- Absolute instant recovered by the decoder:
`absoluteTime = decodedDeployedAt + delay`. -/
def decodeAbsolute (packed : Nat) (stage : Nat) : Nat :=
  decodeDeployedAt packed + decodeStageDelay packed stage

theorem and_mask32 (x : Nat) : x &&& 0xFFFFFFFF = x % 2 ^ 32 := by
  have h : (0xFFFFFFFF : Nat) = 2 ^ 32 - 1 := by norm_num
  rw [h, Nat.and_pow_two_sub_one_eq_mod]

theorem lor_mul_pow_eq_add (b : Nat) :
    ∀ (k a : Nat), a < 2 ^ k → a ||| b * 2 ^ k = a + b * 2 ^ k := by
  intro k
  induction k with
  | zero =>
    intro a h
    have ha : a = 0 := by omega
    subst ha
    simp
  | succ k ih =>
    intro a h
    have hsplit : b * 2 ^ (k + 1) = 2 * (b * 2 ^ k) := by ring
    rw [hsplit]
    have hdiv : (a ||| 2 * (b * 2 ^ k)) / 2 = a / 2 ||| b * 2 ^ k := by
      rw [Nat.or_div_two]
      congr 1
      omega
    have hmod : (a ||| 2 * (b * 2 ^ k)) % 2 = a % 2 := by
      have hiff := Nat.or_mod_two_eq_one (a := a) (b := 2 * (b * 2 ^ k))
      omega
    have ha2 : a / 2 < 2 ^ k := by
      have hpow : 2 ^ (k + 1) = 2 * 2 ^ k := by ring
      omega
    have hrec := ih (a / 2) ha2
    have hdm := Nat.div_add_mod (a ||| 2 * (b * 2 ^ k)) 2
    rw [hdiv, hmod, hrec] at hdm
    omega

/-- The packed value, rewritten as a plain base-`2 ^ 32` positional sum. -/
theorem encodeTimelocks_eq_sum (deployedAt : Nat) (d : TimelockDelays) :
    encodeTimelocks deployedAt d =
      d.srcWithdrawalDelay % 2 ^ 32
      + d.srcPublicWithdrawalDelay % 2 ^ 32 * 2 ^ 32
      + d.srcCancellationDelay % 2 ^ 32 * 2 ^ 64
      + d.srcPublicCancellationDelay % 2 ^ 32 * 2 ^ 96
      + d.dstWithdrawalDelay % 2 ^ 32 * 2 ^ 128
      + d.dstPublicWithdrawalDelay % 2 ^ 32 * 2 ^ 160
      + d.dstCancellationDelay % 2 ^ 32 * 2 ^ 192
      + deployedAt % 2 ^ 32 * 2 ^ 224 := by
  unfold encodeTimelocks
  simp only [and_mask32, Nat.shiftLeft_eq, Nat.zero_or]
  rw [lor_mul_pow_eq_add _ 32 _ (by omega)]
  rw [lor_mul_pow_eq_add _ 64 _ (by omega)]
  rw [lor_mul_pow_eq_add _ 96 _ (by omega)]
  rw [lor_mul_pow_eq_add _ 128 _ (by omega)]
  rw [lor_mul_pow_eq_add _ 160 _ (by omega)]
  rw [lor_mul_pow_eq_add _ 192 _ (by omega)]
  rw [lor_mul_pow_eq_add _ 224 _ (by omega)]
  ring

set_option maxHeartbeats 2000000 in
/-- C7: For every deployment timestamp and every set of seven nonnegative
relative offsets each representable in 32 bits, encoding them into the
packed wide integer and then decoding (extracting each 32-bit lane and
adding it to the 32-bit deployment-timestamp lane) recovers exactly the
seven original absolute instants. -/
theorem encodeTimelocks_decode_roundTrip (deployedAt : Nat) (d : TimelockDelays)
    (hA : deployedAt < 2 ^ 32)
    (h0 : d.srcWithdrawalDelay < 2 ^ 32)
    (h1 : d.srcPublicWithdrawalDelay < 2 ^ 32)
    (h2 : d.srcCancellationDelay < 2 ^ 32)
    (h3 : d.srcPublicCancellationDelay < 2 ^ 32)
    (h4 : d.dstWithdrawalDelay < 2 ^ 32)
    (h5 : d.dstPublicWithdrawalDelay < 2 ^ 32)
    (h6 : d.dstCancellationDelay < 2 ^ 32) :
    decodeAbsolute (encodeTimelocks deployedAt d) 0 = deployedAt + d.srcWithdrawalDelay ∧
    decodeAbsolute (encodeTimelocks deployedAt d) 1 = deployedAt + d.srcPublicWithdrawalDelay ∧
    decodeAbsolute (encodeTimelocks deployedAt d) 2 = deployedAt + d.srcCancellationDelay ∧
    decodeAbsolute (encodeTimelocks deployedAt d) 3 = deployedAt + d.srcPublicCancellationDelay ∧
    decodeAbsolute (encodeTimelocks deployedAt d) 4 = deployedAt + d.dstWithdrawalDelay ∧
    decodeAbsolute (encodeTimelocks deployedAt d) 5 = deployedAt + d.dstPublicWithdrawalDelay ∧
    decodeAbsolute (encodeTimelocks deployedAt d) 6 = deployedAt + d.dstCancellationDelay := by
  refine ⟨?_, ?_, ?_, ?_, ?_, ?_, ?_⟩ <;>
  · simp only [decodeAbsolute, decodeStageDelay, decodeDeployedAt, and_mask32,
      Nat.shiftRight_eq_div_pow, encodeTimelocks_eq_sum]
    norm_num
    omega

/-- Witness for `encodeTimelocks_decode_roundTrip` at a concrete input. -/
theorem encodeTimelocks_decode_roundTrip_witness :
    (1700000000 < 2 ^ 32 ∧ 60 < 2 ^ 32 ∧ 360 < 2 ^ 32 ∧ 3600 < 2 ^ 32 ∧
      3900 < 2 ^ 32 ∧ 0 < 2 ^ 32 ∧ 0 < 2 ^ 32 ∧ 43200 < 2 ^ 32) ∧
    decodeAbsolute (encodeTimelocks 1700000000
      ⟨60, 360, 3600, 3900, 0, 0, 43200⟩) 2 = 1700000000 + 3600 :=
  ⟨by norm_num,
    (encodeTimelocks_decode_roundTrip 1700000000 ⟨60, 360, 3600, 3900, 0, 0, 43200⟩
      (by norm_num) (by norm_num) (by norm_num) (by norm_num) (by norm_num)
      (by norm_num) (by norm_num) (by norm_num)).2.2.1⟩

set_option maxHeartbeats 2000000 in
/-- C10: `encodeTimelocks` never rejects an oversized offset: each 32-bit
lane of the packed result contains the corresponding delay reduced modulo
`2 ^ 32` regardless of its size (the capping loop writes only into a
temporary array and does not affect the packed value), so round-tripping a
delay of at least `2 ^ 32` silently yields a different instant rather than
an error. -/
theorem encodeTimelocks_oversized_lane_mod (deployedAt : Nat) (d : TimelockDelays)
    (hA : deployedAt < 2 ^ 32) :
    (decodeStageDelay (encodeTimelocks deployedAt d) 0 = d.srcWithdrawalDelay % 2 ^ 32 ∧
     decodeStageDelay (encodeTimelocks deployedAt d) 1 = d.srcPublicWithdrawalDelay % 2 ^ 32 ∧
     decodeStageDelay (encodeTimelocks deployedAt d) 2 = d.srcCancellationDelay % 2 ^ 32 ∧
     decodeStageDelay (encodeTimelocks deployedAt d) 3 = d.srcPublicCancellationDelay % 2 ^ 32 ∧
     decodeStageDelay (encodeTimelocks deployedAt d) 4 = d.dstWithdrawalDelay % 2 ^ 32 ∧
     decodeStageDelay (encodeTimelocks deployedAt d) 5 = d.dstPublicWithdrawalDelay % 2 ^ 32 ∧
     decodeStageDelay (encodeTimelocks deployedAt d) 6 = d.dstCancellationDelay % 2 ^ 32) ∧
    (2 ^ 32 ≤ d.srcWithdrawalDelay →
      decodeAbsolute (encodeTimelocks deployedAt d) 0 < deployedAt + d.srcWithdrawalDelay) := by
  refine ⟨⟨?_, ?_, ?_, ?_, ?_, ?_, ?_⟩, ?_⟩ <;>
  · simp only [decodeAbsolute, decodeStageDelay, decodeDeployedAt, and_mask32,
      Nat.shiftRight_eq_div_pow, encodeTimelocks_eq_sum]
    norm_num
    omega

/-- Witness for `encodeTimelocks_oversized_lane_mod` on a delay of
`2 ^ 32 + 5`, whose lane decodes to `5`. -/
theorem encodeTimelocks_oversized_lane_mod_witness :
    (1000 < 2 ^ 32 ∧ 2 ^ 32 ≤ 2 ^ 32 + 5) ∧
    decodeStageDelay (encodeTimelocks 1000 ⟨2 ^ 32 + 5, 1, 2, 3, 4, 5, 6⟩) 0
      = (2 ^ 32 + 5) % 2 ^ 32 ∧
    decodeAbsolute (encodeTimelocks 1000 ⟨2 ^ 32 + 5, 1, 2, 3, 4, 5, 6⟩) 0
      < 1000 + (2 ^ 32 + 5) :=
  ⟨⟨by norm_num, by norm_num⟩,
    (encodeTimelocks_oversized_lane_mod 1000 ⟨2 ^ 32 + 5, 1, 2, 3, 4, 5, 6⟩
      (by norm_num)).1.1,
    (encodeTimelocks_oversized_lane_mod 1000 ⟨2 ^ 32 + 5, 1, 2, 3, 4, 5, 6⟩
      (by norm_num)).2 (by norm_num)⟩

/-! ## `EscrowSrc` guard logic

`EscrowSrc.sol` composes each entry point from the `BaseEscrow` modifiers
`onlyTaker`, `onlyAfter`, `onlyBefore`, `onlyValidSecret` and
`onlyAccessTokenHolder` plus `TimelocksLib.get`.  `BaseEscrow.sol` and
`TimelocksLib.sol` are not among the provided sources, so those helpers are
modelled from the spec; their semantics are corroborated in-repo by
`EscrowSrc.validateWithdrawConditions`, which spells the same guards out as
`block.timestamp >= withdrawalStart`, `block.timestamp < cancellationStart`,
`msg.sender == immutables.taker` and `keccak(secret) == immutables.hashlock`,
and by the lane layout documented inside `encodeTimelocks`.

Addresses and 32-byte words are modelled as `Nat`; the hash primitive is an
abstract parameter `H`. -/

/-- The `TimelocksLib.Stage` enum (order fixes each stage's 32-bit lane). -/
inductive Stage
  | srcWithdrawal
  | srcPublicWithdrawal
  | srcCancellation
  | srcPublicCancellation
  | dstWithdrawal
  | dstPublicWithdrawal
  | dstCancellation
deriving DecidableEq, Repr

/-- Lane index of a stage, as in the `Stage` enum. -/
def Stage.index : Stage → Nat
  | .srcWithdrawal => 0
  | .srcPublicWithdrawal => 1
  | .srcCancellation => 2
  | .srcPublicCancellation => 3
  | .dstWithdrawal => 4
  | .dstPublicWithdrawal => 5
  | .dstCancellation => 6

/-- Modelled from the spec: `TimelocksLib.get` (the library file is not among
the provided sources).  Per §4.4 and the decode comments inside
`encodeTimelocks`, the absolute instant of a stage is the 32-bit deployment
timestamp stored in bits 224-255 plus the stage's own 32-bit lane. -/
def Timelocks.get (data : Nat) (s : Stage) : Nat :=
  ((data >>> 224) &&& 0xFFFFFFFF) + ((data >>> (32 * s.index)) &&& 0xFFFFFFFF)

/-- The `IEscrow.Immutables` tuple bound into each escrow at creation:
`{orderHash, hashlock, maker, taker, token, amount, safetyDeposit,
timelocks}`. -/
structure Immutables where
  orderHash : Nat
  hashlock : Nat
  maker : Nat
  taker : Nat
  token : Nat
  amount : Nat
  safetyDeposit : Nat
  timelocks : Nat
deriving DecidableEq, Repr

/-- Ambient data of one on-chain call: `block.timestamp`, `msg.sender`, and
whether the sender holds the access token consulted by
`onlyAccessTokenHolder`. -/
structure CallEnv where
  timestamp : Nat
  sender : Nat
  holdsAccessToken : Bool
deriving DecidableEq, Repr

/-- Modelled from the spec: `BaseEscrow.onlyTaker` —
`msg.sender == immutables.taker`. -/
def onlyTaker (e : CallEnv) (i : Immutables) : Bool :=
  e.sender == i.taker

/-- Modelled from the spec: `BaseEscrow.onlyAfter start` —
the call is valid only when `block.timestamp >= start`. -/
def onlyAfter (e : CallEnv) (start : Nat) : Bool :=
  decide (start ≤ e.timestamp)

/-- Modelled from the spec: `BaseEscrow.onlyBefore stop` —
the call is valid only when `block.timestamp < stop`. -/
def onlyBefore (e : CallEnv) (stop : Nat) : Bool :=
  decide (e.timestamp < stop)

/-- Modelled from the spec: `BaseEscrow.onlyValidSecret` —
`keccak(secret) == immutables.hashlock`, with the hash primitive abstracted
as `H`. -/
def onlyValidSecret (H : Nat → Nat) (secret : Nat) (i : Immutables) : Bool :=
  H secret == i.hashlock

/-- Modelled from the spec: `BaseEscrow.onlyAccessTokenHolder` — the caller
must hold the access credential. -/
def onlyAccessTokenHolder (e : CallEnv) : Bool :=
  e.holdsAccessToken

/-- Guard of `EscrowSrc._withdrawTo`: in this repository the
`onlyValidImmutables` modifier is commented out, so the only remaining check
is `onlyValidSecret`. -/
def withdrawToInternalOk (H : Nat → Nat) (secret : Nat) (i : Immutables) : Bool :=
  onlyValidSecret H secret i

/-- Guard of `EscrowSrc._cancel`: the `onlyValidImmutables` modifier is
commented out, leaving no check at all. -/
def cancelInternalOk (_i : Immutables) : Bool :=
  true

/-- Guard of `EscrowSrc.withdraw(secret, immutables)`. -/
def withdrawOk (H : Nat → Nat) (e : CallEnv) (secret : Nat) (i : Immutables) : Bool :=
  onlyTaker e i
    && onlyAfter e (Timelocks.get i.timelocks .srcWithdrawal)
    && onlyBefore e (Timelocks.get i.timelocks .srcCancellation)
    && withdrawToInternalOk H secret i

/-- Guard of `EscrowSrc.withdrawTo(secret, target, immutables)` (the target
address does not enter any guard). -/
def withdrawToOk (H : Nat → Nat) (e : CallEnv) (secret : Nat) (_target : Nat)
    (i : Immutables) : Bool :=
  onlyTaker e i
    && onlyAfter e (Timelocks.get i.timelocks .srcWithdrawal)
    && onlyBefore e (Timelocks.get i.timelocks .srcCancellation)
    && withdrawToInternalOk H secret i

/-- Guard of `EscrowSrc.publicWithdraw(secret, immutables)`. -/
def publicWithdrawOk (H : Nat → Nat) (e : CallEnv) (secret : Nat) (i : Immutables) : Bool :=
  onlyAccessTokenHolder e
    && onlyAfter e (Timelocks.get i.timelocks .srcPublicWithdrawal)
    && onlyBefore e (Timelocks.get i.timelocks .srcCancellation)
    && withdrawToInternalOk H secret i

/-- Guard of `EscrowSrc.cancel(immutables)`. -/
def cancelOk (e : CallEnv) (i : Immutables) : Bool :=
  onlyTaker e i
    && onlyAfter e (Timelocks.get i.timelocks .srcCancellation)
    && cancelInternalOk i

/-- Guard of `EscrowSrc.publicCancel(immutables)`. -/
def publicCancelOk (e : CallEnv) (i : Immutables) : Bool :=
  onlyAccessTokenHolder e
    && onlyAfter e (Timelocks.get i.timelocks .srcPublicCancellation)
    && cancelInternalOk i

/-- C2: a source-escrow withdrawal (via `withdraw`, `withdrawTo` or
`publicWithdraw`) succeeds if and only if `now ∈ [SrcWithdrawal,
SrcCancellation)`, the hash of the secret equals the bound hashlock, and the
caller is the taker or holds the access credential with `now ≥
SrcPublicWithdrawal`.  The hypothesis is the §3 timelock-ordering invariant
`SrcWithdrawal ≤ SrcPublicWithdrawal`. -/
theorem srcWithdrawal_succeeds_iff (H : Nat → Nat) (e : CallEnv)
    (secret target : Nat) (i : Immutables)
    (hord : Timelocks.get i.timelocks .srcWithdrawal
      ≤ Timelocks.get i.timelocks .srcPublicWithdrawal) :
    (withdrawOk H e secret i || withdrawToOk H e secret target i
        || publicWithdrawOk H e secret i) = true ↔
      (Timelocks.get i.timelocks .srcWithdrawal ≤ e.timestamp
        ∧ e.timestamp < Timelocks.get i.timelocks .srcCancellation
        ∧ H secret = i.hashlock
        ∧ (e.sender = i.taker
            ∨ (e.holdsAccessToken = true
                ∧ Timelocks.get i.timelocks .srcPublicWithdrawal ≤ e.timestamp))) := by
  simp only [withdrawOk, withdrawToOk, publicWithdrawOk, withdrawToInternalOk,
    onlyTaker, onlyAfter, onlyBefore, onlyValidSecret, onlyAccessTokenHolder,
    Bool.or_eq_true, Bool.and_eq_true, decide_eq_true_eq, beq_iff_eq]
  constructor
  · rintro ((⟨⟨⟨h1, h2⟩, h3⟩, h4⟩ | ⟨⟨⟨h1, h2⟩, h3⟩, h4⟩) | ⟨⟨⟨h1, h2⟩, h3⟩, h4⟩)
    · exact ⟨h2, h3, h4, Or.inl h1⟩
    · exact ⟨h2, h3, h4, Or.inl h1⟩
    · exact ⟨le_trans hord h2, h3, h4, Or.inr ⟨h1, h2⟩⟩
  · rintro ⟨h1, h2, h3, h4 | ⟨h4, h5⟩⟩
    · exact Or.inl (Or.inl ⟨⟨⟨h4, h1⟩, h2⟩, h3⟩)
    · exact Or.inr ⟨⟨⟨h4, h5⟩, h2⟩, h3⟩

/-- Witness for `srcWithdrawal_succeeds_iff` on a concrete escrow whose
timelocks place the call inside the private-withdrawal window. -/
theorem srcWithdrawal_succeeds_iff_witness :
    (Timelocks.get (10 + 20 * 2 ^ 32 + 100 * 2 ^ 64) .srcWithdrawal
      ≤ Timelocks.get (10 + 20 * 2 ^ 32 + 100 * 2 ^ 64) .srcPublicWithdrawal) ∧
    ((withdrawOk (fun s => s) ⟨15, 3, false⟩ 7
        ⟨1, 7, 2, 3, 0, 100, 1, 10 + 20 * 2 ^ 32 + 100 * 2 ^ 64⟩
      || withdrawToOk (fun s => s) ⟨15, 3, false⟩ 7 9
        ⟨1, 7, 2, 3, 0, 100, 1, 10 + 20 * 2 ^ 32 + 100 * 2 ^ 64⟩
      || publicWithdrawOk (fun s => s) ⟨15, 3, false⟩ 7
        ⟨1, 7, 2, 3, 0, 100, 1, 10 + 20 * 2 ^ 32 + 100 * 2 ^ 64⟩) = true ↔
      (Timelocks.get (10 + 20 * 2 ^ 32 + 100 * 2 ^ 64) .srcWithdrawal ≤ 15
        ∧ 15 < Timelocks.get (10 + 20 * 2 ^ 32 + 100 * 2 ^ 64) .srcCancellation
        ∧ 7 = 7
        ∧ (3 = 3 ∨ (false = true
            ∧ Timelocks.get (10 + 20 * 2 ^ 32 + 100 * 2 ^ 64) .srcPublicWithdrawal ≤ 15)))) :=
  ⟨by decide,
    srcWithdrawal_succeeds_iff (fun s => s) ⟨15, 3, false⟩ 7 9
      ⟨1, 7, 2, 3, 0, 100, 1, 10 + 20 * 2 ^ 32 + 100 * 2 ^ 64⟩ (by decide)⟩

/-- C9: if a (private) withdrawal is possible at time `t`, then any `cancel`
or `publicCancel` attempt at a time `t'` strictly before `SrcCancellation`
fails, because `cancel` requires `now ≥ SrcCancellation` and `publicCancel`
requires `now ≥ SrcPublicCancellation`; the hypothesis
`SrcCancellation ≤ SrcPublicCancellation` is the §3 ordering invariant. -/
theorem cancel_fails_before_cancellation (H : Nat → Nat) (secret : Nat)
    (i : Immutables) (e e' : CallEnv)
    (hw : withdrawOk H e secret i = true)
    (hord : Timelocks.get i.timelocks .srcCancellation
      ≤ Timelocks.get i.timelocks .srcPublicCancellation)
    (ht' : e'.timestamp < Timelocks.get i.timelocks .srcCancellation) :
    cancelOk e' i = false ∧ publicCancelOk e' i = false := by
  have h1 : cancelOk e' i ≠ true := by
    intro hc
    simp only [cancelOk, cancelInternalOk, onlyTaker, onlyAfter, Bool.and_true,
      Bool.and_eq_true, decide_eq_true_eq, beq_iff_eq] at hc
    omega
  have h2 : publicCancelOk e' i ≠ true := by
    intro hc
    simp only [publicCancelOk, cancelInternalOk, onlyAccessTokenHolder,
      onlyAfter, Bool.and_true, Bool.and_eq_true, decide_eq_true_eq] at hc
    omega
  exact ⟨Bool.eq_false_iff.mpr h1, Bool.eq_false_iff.mpr h2⟩

/-- Witness for `cancel_fails_before_cancellation`: a concrete escrow in its
private-withdrawal window at `t = 15`, with a cancel attempt at `t' = 50`. -/
theorem cancel_fails_before_cancellation_witness :
    (withdrawOk (fun s => s) ⟨15, 3, true⟩ 7
        ⟨1, 7, 2, 3, 0, 100, 1, 10 + 20 * 2 ^ 32 + 100 * 2 ^ 64 + 200 * 2 ^ 96⟩ = true) ∧
    (Timelocks.get (10 + 20 * 2 ^ 32 + 100 * 2 ^ 64 + 200 * 2 ^ 96) .srcCancellation
      ≤ Timelocks.get (10 + 20 * 2 ^ 32 + 100 * 2 ^ 64 + 200 * 2 ^ 96) .srcPublicCancellation) ∧
    (50 < Timelocks.get (10 + 20 * 2 ^ 32 + 100 * 2 ^ 64 + 200 * 2 ^ 96) .srcCancellation) ∧
    (cancelOk ⟨50, 3, true⟩
        ⟨1, 7, 2, 3, 0, 100, 1, 10 + 20 * 2 ^ 32 + 100 * 2 ^ 64 + 200 * 2 ^ 96⟩ = false ∧
      publicCancelOk ⟨50, 3, true⟩
        ⟨1, 7, 2, 3, 0, 100, 1, 10 + 20 * 2 ^ 32 + 100 * 2 ^ 64 + 200 * 2 ^ 96⟩ = false) :=
  ⟨by decide, by decide, by decide,
    cancel_fails_before_cancellation (fun s => s) 7
      ⟨1, 7, 2, 3, 0, 100, 1, 10 + 20 * 2 ^ 32 + 100 * 2 ^ 64 + 200 * 2 ^ 96⟩
      ⟨15, 3, true⟩ ⟨50, 3, true⟩ (by decide) (by decide) (by decide)⟩

/-- C1: the claim requires every state-changing escrow call to fail unless
the supplied `Immutables` tuple is bit-identical to the tuple bound at
creation.  In this repository the `onlyValidImmutables` modifier is commented
out of `_withdrawTo` and `_cancel`, so no entry point compares the supplied
tuple against the creation-bound one (none of the guards above even receives
the bound tuple as an input).  Concretely: a taker call that succeeds with
the bound tuple still succeeds after mutating the `amount` field, and
`cancel`/`publicCancel` accept arbitrary mutations, contradicting the claim
and the contract's own doc comment ("To perform any action, the caller must
provide the same Immutables values used to deploy the clone contract"). -/
theorem mutated_immutables_still_accepted :
    (Immutables.mk 1 7 2 3 0 101 1 (10 + 20 * 2 ^ 32 + 100 * 2 ^ 64)
        ≠ Immutables.mk 1 7 2 3 0 100 1 (10 + 20 * 2 ^ 32 + 100 * 2 ^ 64)) ∧
    withdrawOk (fun s => s) ⟨15, 3, false⟩ 7
      (Immutables.mk 1 7 2 3 0 101 1 (10 + 20 * 2 ^ 32 + 100 * 2 ^ 64)) = true ∧
    withdrawOk (fun s => s) ⟨15, 3, false⟩ 7
      (Immutables.mk 1 7 2 3 0 100 1 (10 + 20 * 2 ^ 32 + 100 * 2 ^ 64)) = true ∧
    cancelOk ⟨250, 3, false⟩
      (Immutables.mk 1 7 2 3 0 101 1 (10 + 20 * 2 ^ 32 + 100 * 2 ^ 64)) = true := by
  refine ⟨by decide, by decide, by decide, by decide⟩

/-! ## Resolver orchestrator (`ResolverService` in
`backend/src/examples/createOrder.js`)

Order records live in the in-memory `activeOrders` map keyed by order id.
Secrets are modelled after normalisation (the handler's format branch), the
hash primitive (`ethers.keccak256`) is the abstract parameter `H`, and the
two ledger withdrawal RPCs (`withdrawFromTezosEscrow`,
`withdrawFromEthereumEscrow`) are abstract functions that either return a
transaction hash or fail. -/

/-- The stored order status values used by the resolver. -/
inductive OrderStatus
  | created
  | contracts_deployed
  | funded
  | ready_for_reveal
  | completed
  | failed
  | expired
deriving DecidableEq, Repr

/-- Position of a status along the progression
`created → contracts_deployed → funded → ready_for_reveal → completed`
(the two terminal failure states sit outside the chain). -/
def statusRank : OrderStatus → Nat
  | .created => 0
  | .contracts_deployed => 1
  | .funded => 2
  | .ready_for_reveal => 3
  | .completed => 4
  | .failed => 5
  | .expired => 6

/-- The per-order record kept in `activeOrders` (the fields the verified
claims touch). -/
structure OrderRecord where
  orderId : Nat
  secretHash : Nat
  status : OrderStatus
  revealedSecret : Option Nat
  withdrawalTransactions : List Nat
deriving DecidableEq, Repr

/-- `this.activeOrders.get(orderId)`. -/
def findOrder (store : List (Nat × OrderRecord)) (orderId : Nat) : Option OrderRecord :=
  (store.find? (fun p => p.1 == orderId)).map (·.2)

/-- `this.activeOrders.set(orderId, order)` for an id already in the map. -/
def setOrder (store : List (Nat × OrderRecord)) (orderId : Nat)
    (r : OrderRecord) : List (Nat × OrderRecord) :=
  store.map (fun p => if p.1 == orderId then (p.1, r) else p)

/-- The two ledger-side withdrawal RPCs used by `executeWithdrawals`
(ethereum → tezos direction): each either yields a transaction hash or
throws (modelled as `none`; the caller catches and logs). -/
structure LedgerEnv where
  dstWithdraw : Nat → Option Nat
  srcWithdraw : Nat → Option Nat

/-- Embedding of `ResolverService.executeWithdrawals` for an
ethereum-source order: both legs are attempted unconditionally, each inside
its own try/catch; the destination (Tezos) leg's hash is pushed onto
`withdrawalTransactions` on success, while the source (Ethereum) leg's hash
is computed but never pushed (as in the source).  Returns the updated
record and the number of withdrawal attempts submitted to the ledgers. -/
def executeWithdrawals (env : LedgerEnv) (order : OrderRecord)
    (secret : Nat) : OrderRecord × Nat :=
  let txs := match env.dstWithdraw secret with
    | some h => [h]
    | none => []
  let _ethTx := env.srcWithdraw secret
  ({ order with withdrawalTransactions := txs }, 2)

/-- Replies of the reveal endpoint.  Modelled from the spec: §6 names the
endpoint's vocabulary `{success, hash mismatch, not found, already
completed}`; the handler itself is embedded from
`ResolverService.handleSecretRevelation`, which produces only the first
three. -/
inductive RevealResponse
  | orderNotFound
  | secretMismatch
  | alreadyCompleted
  | completedOk (transactionHashes : List Nat)
deriving DecidableEq, Repr

/-- Result of one reveal call: the store afterwards, the reply, and how
many withdrawal attempts were submitted during the call. -/
structure RevealResult where
  store : List (Nat × OrderRecord)
  response : RevealResponse
  withdrawalAttempts : Nat
deriving DecidableEq, Repr

/-- Embedding of `ResolverService.handleSecretRevelation`: look the order
up, hash the (normalised) secret, reject on mismatch, otherwise execute the
withdrawals, mark the order completed and store the revealed secret.  The
stored status is never consulted. -/
def handleSecretRevelation (H : Nat → Nat) (env : LedgerEnv)
    (store : List (Nat × OrderRecord)) (orderId secret : Nat) : RevealResult :=
  match findOrder store orderId with
  | none => ⟨store, .orderNotFound, 0⟩
  | some order =>
    if H secret != order.secretHash then
      ⟨store, .secretMismatch, 0⟩
    else
      let (order2, attempts) := executeWithdrawals env order secret
      let order3 := { order2 with
        status := .completed
        revealedSecret := some secret }
      ⟨setOrder store orderId order3,
        .completedOk order3.withdrawalTransactions, attempts⟩

/-- C3: a reveal whose secret hashes to something other than the stored
`secretHash` is rejected with the secret-mismatch error, submits no
withdrawal to either ledger, and leaves the whole store — in particular the
stored order status — unchanged. -/
theorem reveal_mismatch_rejected (H : Nat → Nat) (env : LedgerEnv)
    (store : List (Nat × OrderRecord)) (orderId secret : Nat)
    (order : OrderRecord)
    (hfind : findOrder store orderId = some order)
    (hne : H secret ≠ order.secretHash) :
    handleSecretRevelation H env store orderId secret
      = ⟨store, .secretMismatch, 0⟩ := by
  unfold handleSecretRevelation
  rw [hfind]
  simp [hne]

/-- Witness for `reveal_mismatch_rejected`: hash model `H s = s + 1`, stored
hash `99`, submitted secret `5`. -/
theorem reveal_mismatch_rejected_witness :
    (findOrder [(1, ⟨1, 99, .funded, none, []⟩)] 1 = some ⟨1, 99, .funded, none, []⟩) ∧
    ((5 : Nat) + 1 ≠ 99) ∧
    handleSecretRevelation (fun s => s + 1)
        ⟨fun _ => some 71, fun _ => some 72⟩
        [(1, ⟨1, 99, .funded, none, []⟩)] 1 5
      = ⟨[(1, ⟨1, 99, .funded, none, []⟩)], .secretMismatch, 0⟩ :=
  ⟨by decide, by decide,
    reveal_mismatch_rejected (fun s => s + 1)
      ⟨fun _ => some 71, fun _ => some 72⟩
      [(1, ⟨1, 99, .funded, none, []⟩)] 1 5
      ⟨1, 99, .funded, none, []⟩ (by decide) (by decide)⟩

/-- C4 counterexample: the claim says a second reveal against an
already-completed order is rejected with an "already completed" response
and executes no withdrawal.  On the code, a reveal of the already-used
valid secret against a `completed` order passes the hash check again,
submits both withdrawal legs again (two attempts), and answers success —
not `alreadyCompleted`. -/
theorem second_reveal_reexecutes :
    (handleSecretRevelation (fun s => s + 1)
        ⟨fun _ => some 71, fun _ => some 72⟩
        [(1, ⟨1, 6, .completed, some 5, [71]⟩)] 1 5).response
      = .completedOk [71] ∧
    (handleSecretRevelation (fun s => s + 1)
        ⟨fun _ => some 71, fun _ => some 72⟩
        [(1, ⟨1, 6, .completed, some 5, [71]⟩)] 1 5).response
      ≠ .alreadyCompleted ∧
    (handleSecretRevelation (fun s => s + 1)
        ⟨fun _ => some 71, fun _ => some 72⟩
        [(1, ⟨1, 6, .completed, some 5, [71]⟩)] 1 5).withdrawalAttempts = 2 := by
  refine ⟨by decide, by decide, by decide⟩

/-- C4 amended: a second reveal with the already-used valid secret is not
rejected; the handler re-verifies the hash, re-submits both withdrawal legs
(two attempts) and returns success again, with the stored status staying
`completed`. -/
theorem second_reveal_amended (H : Nat → Nat) (env : LedgerEnv)
    (store : List (Nat × OrderRecord)) (orderId secret : Nat)
    (order : OrderRecord)
    (hfind : findOrder store orderId = some order)
    (hdone : order.status = .completed)
    (hsec : H secret = order.secretHash) :
    (handleSecretRevelation H env store orderId secret).withdrawalAttempts = 2 ∧
    (handleSecretRevelation H env store orderId secret).response
      ≠ .alreadyCompleted ∧
    (∃ txs, (handleSecretRevelation H env store orderId secret).response
      = .completedOk txs) := by
  unfold handleSecretRevelation
  rw [hfind]
  simp [hsec, executeWithdrawals]

/-- Witness for `second_reveal_amended` on the same concrete store as the
counterexample. -/
theorem second_reveal_amended_witness :
    (findOrder [(1, ⟨1, 6, .completed, some 5, [71]⟩)] 1
        = some ⟨1, 6, .completed, some 5, [71]⟩) ∧
    ((⟨1, 6, .completed, some 5, [71]⟩ : OrderRecord).status = .completed) ∧
    ((5 : Nat) + 1 = 6) ∧
    (handleSecretRevelation (fun s => s + 1)
        ⟨fun _ => some 71, fun _ => some 72⟩
        [(1, ⟨1, 6, .completed, some 5, [71]⟩)] 1 5).withdrawalAttempts = 2 :=
  ⟨by decide, by decide, by decide,
    (second_reveal_amended (fun s => s + 1)
      ⟨fun _ => some 71, fun _ => some 72⟩
      [(1, ⟨1, 6, .completed, some 5, [71]⟩)] 1 5
      ⟨1, 6, .completed, some 5, [71]⟩ (by decide) (by decide) (by decide)).1⟩

/-- Result of the live per-contract probe
(`checkContractStatusOnChain`). -/
structure StatusCheck where
  deployed : Bool
  funded : Bool
deriving DecidableEq, Repr

/-- Embedding of the status-reconciliation step of
`ResolverService.getOrderStatus`: if both live probes report deployed and
funded and the stored status is not already `ready_for_reveal`, the stored
status is overwritten with `ready_for_reveal`; otherwise the record is left
alone.  Returns the (possibly rewritten) record and the reported
`orderStatus`. -/
def getOrderStatus (order : OrderRecord)
    (sourceStatus targetStatus : StatusCheck) : OrderRecord × OrderStatus :=
  let bothContractsReady := sourceStatus.deployed && sourceStatus.funded
    && targetStatus.deployed && targetStatus.funded
  if bothContractsReady && !(order.status == .ready_for_reveal) then
    ({ order with status := .ready_for_reveal }, .ready_for_reveal)
  else
    (order, order.status)

/-- C5: the claim says the stored status only ever advances and that
`getStatus` on a `completed` order never rewrites it to an earlier status.
On the code, `getOrderStatus` on a completed order whose contracts probe as
deployed and funded overwrites the stored status with `ready_for_reveal`,
a strict regression along the status chain. -/
theorem getStatus_regresses_completed :
    (getOrderStatus ⟨1, 6, .completed, some 5, [71]⟩
        ⟨true, true⟩ ⟨true, true⟩).1.status = .ready_for_reveal ∧
    statusRank (getOrderStatus ⟨1, 6, .completed, some 5, [71]⟩
        ⟨true, true⟩ ⟨true, true⟩).1.status < statusRank .completed := by
  refine ⟨by decide, by decide⟩

/-- A submitted order as seen by `handleNewOrder` /
`validateOrderForResolver`: fields that JavaScript may find absent are
`Option`s; amounts are integers since they arrive as arbitrary `BigInt`
strings. -/
structure SignedOrder where
  orderId : Option Nat
  maker : Option Nat
  signature : Option Nat
  makerAsset : Option Nat
  srcExpiry : Option Nat
  dstExpiry : Option Nat
  makingAmount : Option Int
  takingAmount : Option Int
deriving DecidableEq, Repr

/-- Embedding of `ResolverService.validateOrderForResolver`: requires
`orderId`, `maker` and `signature` to be present, the maker (and any
non-zero maker asset) to be a well-formed address per the abstract
`isAddress` oracle, any supplied expiries to lie in the future, and both
amounts to be positive.  No cryptographic check appears anywhere. -/
def validateOrderForResolver (isAddress : Nat → Bool) (now : Nat)
    (o : SignedOrder) : Bool :=
  o.orderId.isSome && o.maker.isSome && o.signature.isSome
    && (match o.maker with
        | some m => isAddress m
        | none => false)
    && (match o.makerAsset with
        | some a => a == 0 || isAddress a
        | none => true)
    && (match o.srcExpiry with
        | some t => decide (now < t)
        | none => true)
    && (match o.dstExpiry with
        | some t => decide (now < t)
        | none => true)
    && (match o.makingAmount with
        | some v => decide (0 < v)
        | none => false)
    && (match o.takingAmount with
        | some v => decide (0 < v)
        | none => false)

/-- Embedding of the acceptance gate of `ResolverService.handleNewOrder`:
the handler logs "Temporarily skipping signature verification", runs only
`validateOrderForResolver`, and proceeds straight to escrow deployment, so
an order is accepted exactly when the field validation passes. -/
def handleNewOrderAccepts (isAddress : Nat → Bool) (now : Nat)
    (o : SignedOrder) : Bool :=
  validateOrderForResolver isAddress now o

/-- Embedding of `CrossChainOrderService.verifyOrderSignature`
(`backend/src/orderService.js`): recover the signer from the domain-separated
signature over the order data (abstract oracle `recover`; `none` models the
catch branch) and compare with the maker; this function exists but is never
called by `handleNewOrder`. -/
def verifyOrderSignature (recover : SignedOrder → Option Nat)
    (o : SignedOrder) : Bool :=
  match recover o, o.maker with
  | some r, some m => r == m
  | _, _ => false

/-- C6: the claim says acceptance succeeds only if the domain-separated
signature recovers the maker, with forged orders rejected before any escrow
deployment.  On the code, `handleNewOrder` skips signature verification
altogether ("⚠️ Temporarily skipping signature verification"), so an order
whose signature recovers an address different from the maker is accepted
and deployed anyway. -/
theorem forged_signature_accepted :
    handleNewOrderAccepts (fun _ => true) 1000
      ⟨some 1, some 2, some 3, some 0, some 2000, some 1500, some 10, some 20⟩
      = true ∧
    verifyOrderSignature (fun _ => some 999)
      ⟨some 1, some 2, some 3, some 0, some 2000, some 1500, some 10, some 20⟩
      = false := by
  refine ⟨by decide, by decide⟩

/-! ## Timelock derivation at order acceptance
(`ContractDeploymentService.extractOrderDeploymentParams`) -/

/-- The `timelocks` object generated at order acceptance. -/
structure GeneratedTimelocks where
  withdrawalStart : Nat
  publicWithdrawalStart : Nat
  cancellationStart : Nat
  publicCancellationStart : Nat
  rescueStart : Nat
  dstCancellationStart : Nat
deriving DecidableEq, Repr

/-- Embedding of the timelock derivation inside
`ContractDeploymentService.extractOrderDeploymentParams`: private
withdrawal opens 60 s after `now`, public withdrawal 360 s after,
cancellation at `max(srcExpiry, now+3600)`, public cancellation at
`max(srcExpiry+300, now+3900)`, rescue at `max(srcExpiry+86400,
now+90000)`, and the standalone destination cancellation at
`max(dstExpiry, now+1800)`. -/
def extractOrderDeploymentParamsTimelocks (now srcExpiry dstExpiry : Nat) :
    GeneratedTimelocks :=
  { withdrawalStart := now + 60
    publicWithdrawalStart := now + 360
    cancellationStart := max srcExpiry (now + 3600)
    publicCancellationStart := max (srcExpiry + 300) (now + 3900)
    rescueStart := max (srcExpiry + 24 * 60 * 60) (now + 25 * 60 * 60)
    dstCancellationStart := max dstExpiry (now + 1800) }

/-- C8 counterexample: the derived Destination cancellation deadline never
closes before the Source exclusive-withdrawal window opens — at
`now = 1000`, `srcExpiry = 2000`, `dstExpiry = 1500` the Source window
opens at `1060` while the Destination deadline is `2800`. -/
theorem dstCancellation_not_before_srcWithdrawal :
    ¬ ((extractOrderDeploymentParamsTimelocks 1000 2000 1500).dstCancellationStart
      < (extractOrderDeploymentParamsTimelocks 1000 2000 1500).withdrawalStart) := by
  decide

/-- C8 amended: for every `now`, `srcExpiry` and `dstExpiry`, the derived
set satisfies `SrcWithdrawal ≤ SrcPublicWithdrawal ≤ SrcCancellation ≤
SrcPublicCancellation`; the Destination cancellation deadline does NOT
close before the Source exclusive-withdrawal window opens (that window
opens 60 s after acceptance while the deadline is at least 1800 s after);
instead, whenever `dstExpiry ≤ srcExpiry`, the Destination deadline closes
at or before the Source cancellation stage opens. -/
theorem generated_timelocks_ordering (now srcExpiry dstExpiry : Nat) :
    (extractOrderDeploymentParamsTimelocks now srcExpiry dstExpiry).withdrawalStart
      ≤ (extractOrderDeploymentParamsTimelocks now srcExpiry dstExpiry).publicWithdrawalStart ∧
    (extractOrderDeploymentParamsTimelocks now srcExpiry dstExpiry).publicWithdrawalStart
      ≤ (extractOrderDeploymentParamsTimelocks now srcExpiry dstExpiry).cancellationStart ∧
    (extractOrderDeploymentParamsTimelocks now srcExpiry dstExpiry).cancellationStart
      ≤ (extractOrderDeploymentParamsTimelocks now srcExpiry dstExpiry).publicCancellationStart ∧
    (extractOrderDeploymentParamsTimelocks now srcExpiry dstExpiry).withdrawalStart
      < (extractOrderDeploymentParamsTimelocks now srcExpiry dstExpiry).dstCancellationStart ∧
    (dstExpiry ≤ srcExpiry →
      (extractOrderDeploymentParamsTimelocks now srcExpiry dstExpiry).dstCancellationStart
        ≤ (extractOrderDeploymentParamsTimelocks now srcExpiry dstExpiry).cancellationStart) := by
  simp only [extractOrderDeploymentParamsTimelocks]
  omega

/-- Witness for `generated_timelocks_ordering` at `now = 1000`,
`srcExpiry = 5000`, `dstExpiry = 4000` (including the conditional
Destination-before-Source-cancellation part). -/
theorem generated_timelocks_ordering_witness :
    ((4000 : Nat) ≤ 5000) ∧
    ((extractOrderDeploymentParamsTimelocks 1000 5000 4000).withdrawalStart
      ≤ (extractOrderDeploymentParamsTimelocks 1000 5000 4000).publicWithdrawalStart) ∧
    ((extractOrderDeploymentParamsTimelocks 1000 5000 4000).dstCancellationStart
      ≤ (extractOrderDeploymentParamsTimelocks 1000 5000 4000).cancellationStart) :=
  ⟨by decide,
    (generated_timelocks_ordering 1000 5000 4000).1,
    (generated_timelocks_ordering 1000 5000 4000).2.2.2.2 (by decide)⟩

end Tezra
